import Mathlib

/- Verification development for the SHV Discord bot (`bot.py`).

   The file gives a shallow embedding of the bot's decision logic:
   startup configuration validation, the staff-role authorization guard,
   the date/time parsing performed by the `create-event` command, the
   work-thread channel deletion commands, and the error routing of the
   `create-event` handler.  External effects (Discord API calls) are
   modelled by explicit outcome parameters; machine state that the code
   reads (configuration, roles, channel names) is passed explicitly.

   String manipulation is modelled on `List Char` (with `String.data` at
   the boundary) so that every definition evaluates inside the kernel. -/

namespace SHVBot

/- ### Python string primitives, on lists of characters -/

/-- Splits a character list at every occurrence of the character `c`
(model of Python `str.split(c)`; also used to model the field structure
of `strptime` formats such as `"%d-%m-%Y %H:%M"`). -/
def splitOnChar (c : Char) : List Char → List (List Char)
  | [] => [[]]
  | x :: xs =>
    if x = c then [] :: splitOnChar c xs
    else
      match splitOnChar c xs with
      | [] => [[x]]
      | h :: t => (x :: h) :: t

/-- Splits a character list at the first occurrence of `c`, if any
(model of Python `str.split(c, 1)`; the second component is `none`
exactly when `c` does not occur, i.e. Python `c not in s`). -/
def splitFirst (c : Char) : List Char → List Char × Option (List Char)
  | [] => ([], none)
  | x :: xs =>
    if x = c then ([], some xs)
    else (x :: (splitFirst c xs).1, (splitFirst c xs).2)

/-- Removes leading and trailing whitespace (model of Python `str.strip()`). -/
def trimL (l : List Char) : List Char :=
  ((l.dropWhile Char.isWhitespace).reverse.dropWhile Char.isWhitespace).reverse

/-- Boolean prefix test on character lists (model of Python `str.startswith`). -/
def isPrefixL : List Char → List Char → Bool
  | [], _ => true
  | _ :: _, [] => false
  | a :: as, b :: bs => a = b && isPrefixL as bs

/-- Boolean substring test (model of Python `needle in haystack` on strings). -/
def containsSub (needle : List Char) : List Char → Bool
  | [] => needle.isEmpty
  | x :: xs => isPrefixL needle (x :: xs) || containsSub needle xs

/-- ASCII decimal digit test (the digits accepted by the CPython `strptime`
patterns and by `int()`; non-ASCII Unicode digits are not modelled — no
configuration or command input in this repository uses them). -/
def isDigitC (c : Char) : Bool := 48 ≤ c.toNat && c.toNat ≤ 57

/-- Numeric value of a list of decimal digit characters. -/
def digitsVal (l : List Char) : Nat :=
  l.foldl (fun a c => a * 10 + (c.toNat - 48)) 0

/-- Decimal digits of a natural number (helper for rendering ids in replies). -/
def natDigitsAux : Nat → Nat → List Char
  | 0, _ => []
  | fuel + 1, n =>
    if n < 10 then [Char.ofNat (48 + n)]
    else natDigitsAux fuel (n / 10) ++ [Char.ofNat (48 + n % 10)]

/-- Decimal rendering of a natural number as characters. -/
def natRepr (n : Nat) : List Char := natDigitsAux (n + 1) n

/-- Model of Python `int(s)` on a string: strip whitespace, optional single
sign, then a nonempty run of ASCII digits.  (PEP 515 underscore separators
and non-ASCII digits are not modelled; no configured role id uses them.) -/
def pyParseIntL (l : List Char) : Option Int :=
  let t := trimL l
  let neg := isPrefixL ['-'] t
  let core := if neg || isPrefixL ['+'] t then t.drop 1 else t
  if !core.isEmpty && core.all isDigitC then
    let n : Nat := digitsVal core
    some (if neg then -(n : Int) else (n : Int))
  else none

/- ### Dates and times -/

/-- A naive wall-clock datetime (year, month, day, hour, minute), the shape
produced by `datetime.strptime` with the formats used in `bot.py`.  The code
always tags these with `tzinfo=datetime.timezone.utc` (an identity on the
wall-clock fields), so values of this type denote UTC instants. -/
structure DateTime where
  year : Nat
  month : Nat
  day : Nat
  hour : Nat
  minute : Nat
deriving DecidableEq

/-- Leap-year test of the Gregorian calendar (as in Python `calendar`/`datetime`). -/
def isLeapYear (y : Nat) : Bool :=
  (y % 4 == 0 && y % 100 != 0) || y % 400 == 0

/-- Number of days in a month (Python `datetime` validation). -/
def daysInMonth (y m : Nat) : Nat :=
  if m == 2 then (if isLeapYear y then 29 else 28)
  else if m == 4 || m == 6 || m == 9 || m == 11 then 30
  else 31

/-- Strict comparison of datetimes (Python `datetime.__lt__` on two
UTC-aware datetimes): lexicographic on the calendar fields. -/
def dtLt (a b : DateTime) : Bool :=
  decide (a.year < b.year) ||
    (a.year == b.year &&
      (decide (a.month < b.month) ||
        (a.month == b.month &&
          (decide (a.day < b.day) ||
            (a.day == b.day &&
              (decide (a.hour < b.hour) ||
                (a.hour == b.hour && decide (a.minute < b.minute))))))))

/-- Addition of one hour with calendar rollover
(Python `datetime + timedelta(hours=1)`; a result with year 10000 is the
case in which Python raises `OverflowError`, checked at the call site). -/
def addHour (d : DateTime) : DateTime :=
  if d.hour + 1 ≤ 23 then ⟨d.year, d.month, d.day, d.hour + 1, d.minute⟩
  else if d.day + 1 ≤ daysInMonth d.year d.month then ⟨d.year, d.month, d.day + 1, 0, d.minute⟩
  else if d.month + 1 ≤ 12 then ⟨d.year, d.month + 1, 1, 0, d.minute⟩
  else ⟨d.year + 1, 1, 1, 0, d.minute⟩

/- ### strptime models

   CPython `_strptime` compiles `"%d"` to the pattern `3[01]|[12]\d|0[1-9]|[1-9]`,
   `"%m"` to `1[0-2]|0[1-9]|[1-9]`, `"%H"` to `2[0-3]|[0-1]\d|\d`, `"%M"` to
   `[0-5]\d|\d` and `"%Y"` to exactly four digits; the whole input must be
   consumed, and `datetime` then validates the day against the month and
   requires year at least 1.  A field is therefore one digit at least `lo1`,
   or two digits whose value lies in `[lo2, hi2]`. -/

/-- Parses one numeric `strptime` field: a single digit of value at least
`lo1`, or two digits of value in `[lo2, hi2]`. -/
def parseField12 (lo1 lo2 hi2 : Nat) (s : List Char) : Option Nat :=
  if s.all isDigitC then
    let v := digitsVal s
    if s.length == 1 then (if lo1 ≤ v then some v else none)
    else if s.length == 2 then (if lo2 ≤ v && v ≤ hi2 then some v else none)
    else none
  else none

/-- Parses a `"%Y"` field: exactly four digits, value at least 1
(`datetime.MINYEAR`). -/
def parseYear4 (s : List Char) : Option Nat :=
  if s.length == 4 && s.all isDigitC && 1 ≤ digitsVal s then some (digitsVal s)
  else none

/-- Model of `datetime.strptime(s, "%d-%m-%Y")` (bot.py line 239): a valid
calendar date, returned with the time fields set to midnight.  `none` is the
`ValueError` case. -/
def parseDMY (s : List Char) : Option DateTime :=
  match splitOnChar '-' s with
  | [d, m, y] =>
    match parseField12 1 1 31 d, parseField12 1 1 12 m, parseYear4 y with
    | some dv, some mv, some yv =>
      if dv ≤ daysInMonth yv mv then some ⟨yv, mv, dv, 0, 0⟩ else none
    | _, _, _ => none
  | _ => none

/-- Model of `datetime.strptime(s, "%d-%m-%Y %H:%M")` (bot.py line 168).
`none` is the `ValueError` case.  (The single literal space of the format,
which CPython relaxes to a whitespace run, is modelled as exactly one
space; no claim depends on multi-space inputs.) -/
def parseDMYHM (s : List Char) : Option DateTime :=
  match splitOnChar ' ' s with
  | [ds, ts] =>
    match splitOnChar ':' ts with
    | [hs, ms] =>
      match parseDMY ds, parseField12 0 0 23 hs, parseField12 0 0 59 ms with
      | some d, some hv, some mv => some ⟨d.year, d.month, d.day, hv, mv⟩
      | _, _, _ => none
    | _ => none
  | _ => none

/- ### create-event date/time computation (bot.py lines 150-186) -/

/-- Outcome of the date/time computation of the `create-event` handler:
the parsed (start, end) pair tagged UTC, or `none` when an exception
(`ValueError` from the fallback parse, or `OverflowError` from the
one-hour addition) escapes, together with the number of
"Time format invalid" warning follow-ups sent. -/
structure EventTimes where
  result : Option (DateTime × DateTime)
  warnings : Nat
deriving DecidableEq

/-- Model of the split of `time_str` into start and end parts
(bot.py lines 156-161): Python `time_str.split("-", 1)` guarded by
`"-" in time_str`, with both parts stripped; no dash leaves `time_str`
itself as the start part and no end part. -/
def splitTimeParts (time_str : List Char) : List Char × Option (List Char) :=
  match splitFirst '-' time_str with
  | (_, none) => (time_str, none)
  | (a, some b) => (trimL a, some (trimL b))

/-- Model of the inner `try_parse` of `create_event` (bot.py lines 163-171):
parse `dt_str` with `"%d-%m-%Y %H:%M"`; on `ValueError` send one warning
follow-up and parse `f"{date_str} 00:00"` instead, whose own `ValueError`
propagates (first component `none`). -/
def try_parse (date_str dt_str : List Char) : Option DateTime × Nat :=
  match parseDMYHM dt_str with
  | some d => (some d, 0)
  | none =>
    match parseDMYHM (date_str ++ ' ' :: "00:00".data) with
    | some d => (some d, 1)
    | none => (none, 1)

/-- Final step of the no-end-part branch (bot.py line 180):
`end_dt = start_dt + timedelta(hours=1)`, where Python raises
`OverflowError` when the sum leaves the representable years. -/
def finishWithAddHour (s : DateTime) (w : Nat) : EventTimes :=
  let e := addHour s
  if 9999 < e.year then ⟨none, w⟩ else ⟨some (s, e), w⟩

/-- Model of the date/time computation of `create_event`
(bot.py lines 150-186): strip the inputs, split the time range on the
first dash, `try_parse` each part against the date, default the end to
start plus one hour when the end part is absent or empty, and tag the
results UTC. -/
def computeEventTimes (date time : String) : EventTimes :=
  let date_str := trimL date.data
  let time_str := trimL time.data
  let parts := splitTimeParts time_str
  match try_parse date_str (date_str ++ ' ' :: parts.1) with
  | (none, w1) => ⟨none, w1⟩
  | (some s, w1) =>
    match parts.2 with
    | some ep =>
      if ep.isEmpty then finishWithAddHour s w1
      else
        match try_parse date_str (date_str ++ ' ' :: ep) with
        | (none, w2) => ⟨none, w1 + w2⟩
        | (some e, w2) => ⟨some (s, e), w1 + w2⟩
    | none => finishWithAddHour s w1

/- ### delete-work-thread (bot.py lines 211-218) -/

/-- Model of the `delete_work_thread` handler: given the invoking channel's
name (or `none` when there is no channel), returns the deleted channel's
name (or `none`) and the replies sent.  Mirrors
`if channel and "workthread-" in channel.name: delete; reply`. -/
def delete_work_thread (channel : Option String) : Option String × List String :=
  match channel with
  | none => (none, [])
  | some name =>
    if containsSub "workthread-".data name.data then
      (some name, ["Work thread channel \x27" ++ name ++ "\x27 deleted."])
    else (none, [])

/- ### delete-all-thread (bot.py lines 220-245) -/

/-- Model of the per-channel body of the loop in `delete_all_work_threads`
(bot.py lines 231-244), folded over the accumulator
(deleted channel names, channel names printed as having an invalid date).
Faithful to the source, line 237 joins `parts` — the full split of the
channel name — rather than the extracted `date = parts[-3:]`, so the
`strptime` input is the whole channel name. -/
def processChannel (now : DateTime) (acc : List String × List String)
    (name : String) : List String × List String :=
  if isPrefixL "workthread-".data name.data then
    let parts := splitOnChar '-' name.data
    let date := parts.drop (parts.length - 3)
    if date.length == 3 then
      let date_str := List.intercalate ['-'] parts
      match parseDMY date_str with
      | some event_date =>
        if dtLt event_date now then (acc.1 ++ [name], acc.2) else acc
      | none => (acc.1, acc.2 ++ [name])
    else acc
  else acc

/-- Model of `delete_all_work_threads` over the guild's channel names:
returns (deleted channel names reported in the final reply, channel names
printed as "Invalid date format").  `now` is the current UTC time. -/
def delete_all_work_threads (now : DateTime) (channels : List String) :
    List String × List String :=
  channels.foldl (processChannel now) ([], [])

/- ### Configuration values and startup validation (bot.py lines 20-45) -/

/-- A JSON configuration value of the shapes `config.json` uses:
null, integer, string, or list of strings. -/
inductive ConfigValue where
  | vnull
  | vint (n : Int)
  | vstr (s : String)
  | vlist (l : List String)
deriving DecidableEq

/-- Python truthiness of a configuration value (`not config.get(k)`):
null, zero, the empty string and the empty list are falsy. -/
def ConfigValue.truthy : ConfigValue → Bool
  | .vnull => false
  | .vint n => n != 0
  | .vstr s => !s.data.isEmpty
  | .vlist l => !l.isEmpty

/-- Python `str(v)` of a configuration value (used by the role check's
name comparison fallback). -/
def pyStr : ConfigValue → List Char
  | .vnull => "None".data
  | .vint n => if n < 0 then '-' :: natRepr n.natAbs else natRepr n.natAbs
  | .vstr s => s.data
  | .vlist l =>
    '[' :: List.intercalate [',', ' '] (l.map (fun s => '\x27' :: s.data ++ ['\x27'])) ++ [']']

/-- Python `int(v)` of a configuration value, `none` when it raises
(`ValueError` for unparsable strings, `TypeError` for null or lists). -/
def pyIntOf : ConfigValue → Option Int
  | .vint n => some n
  | .vstr s => pyParseIntL s.data
  | .vnull => none
  | .vlist _ => none

/-- Result of the module-level startup validation: exit with a code after
printing a diagnostic, or proceed to construct and run the bot. -/
inductive StartupResult where
  | exitWith (code : Nat) (msg : String)
  | proceed
deriving DecidableEq

/-- Truthiness of `config.get(k)`: false when the key is missing or its
value is falsy. -/
def configTruthy (cfg : String → Option ConfigValue) (k : String) : Bool :=
  match cfg k with
  | none => false
  | some v => v.truthy

/-- Truthiness of the module-level `TOKEN` (`None`, or the first non-blank
line of `token.cfg`). -/
def tokenTruthy : Option String → Bool
  | none => false
  | some s => !s.data.isEmpty

/-- Model of the startup validation (bot.py lines 34-45): the four guard
blocks in source order, each printing a diagnostic and calling `exit(1)`
when its truthiness test fails. -/
def startupValidate (cfg : String → Option ConfigValue) (token : Option String) :
    StartupResult :=
  if configTruthy cfg "WorkThreadCategoryID" = false then
    .exitWith 1 "WorkThreadCategoryID not set in config.json"
  else if configTruthy cfg "ServerID" = false then
    .exitWith 1 "ServerID not set in config.json"
  else if (configTruthy cfg "Commitees" && configTruthy cfg "Places" &&
      configTruthy cfg "event_types") = false then
    .exitWith 1 "Commitees, Places or event_types not set in config.json"
  else if tokenTruthy token = false then
    .exitWith 1 "DISCORD_TOKEN not set in environment or token.cfg"
  else .proceed

/-- The required configuration keys named by the specification. -/
def requiredKeys : List String :=
  ["ServerID", "WorkThreadCategoryID", "Commitees", "Places", "event_types"]

/-- The slash commands the module registers (lines 94-247) when, and only
when, startup validation proceeds: the validation `exit(1)` calls run
before any command decorator executes. -/
def startupCommands (cfg : String → Option ConfigValue) (token : Option String) :
    StartupResult × List String :=
  match startupValidate cfg token with
  | .proceed =>
    (.proceed, ["events create-event", "events delete-work-thread", "events delete-all-thread"])
  | r => (r, [])

/- ### Staff-role authorization guard (bot.py lines 74-91) -/

/-- A guild role, as read by the check: a numeric id and a name. -/
structure Role where
  id : Nat
  name : String
deriving DecidableEq

/-- Result of an application-command check: passes, or raises
`app_commands.CheckFailure(msg)` (which prevents the command body from
running and is routed to the global error handler). -/
inductive CheckResult where
  | ok
  | checkFailure (msg : String)
deriving DecidableEq

/-- True exactly when the check raised a `CheckFailure`. -/
def CheckResult.isFailure : CheckResult → Bool
  | .ok => false
  | .checkFailure _ => true

/-- Model of `_check_sa_role` (bot.py lines 74-91): fails when
`config.get("SARoleID")` is missing or falsy, or the invoker is not a
guild member; otherwise tries `int(sa_value)` and matches roles by id,
falling back to an exact-name match against `str(sa_value)` only when
`int` raises; fails when no role matched.  `member` is `none` when the
invoking user has no guild membership context, otherwise the member's
role list. -/
def _check_sa_role (sa : Option ConfigValue) (member : Option (List Role)) :
    CheckResult :=
  match sa with
  | none => .checkFailure "SA role not configured on the bot."
  | some v =>
    if v.truthy = false then .checkFailure "SA role not configured on the bot."
    else
      match member with
      | none => .checkFailure "This command can only be used in a server."
      | some roles =>
        let allowed :=
          match pyIntOf v with
          | some saId => roles.any (fun r => (r.id : Int) == saId)
          | none => roles.any (fun r => r.name.data == pyStr v)
        if allowed then .ok
        else .checkFailure "You must have the SA role to use this command."

/-- Model of running a guarded command body: when the check raises, the
body never runs (no side effect) and the global error handler
(bot.py lines 250-258) replies with the error text; otherwise the body
runs and no error reply is sent. -/
def runGuarded {α : Type} (sa : Option ConfigValue) (member : Option (List Role))
    (body : α) : Option α × List String :=
  match _check_sa_role sa member with
  | .checkFailure m => (none, ["Error: " ++ m])
  | .ok => (some body, [])

/- ### The create-event handler (bot.py lines 109-209) -/

/-- A Python exception of the kinds the handler distinguishes:
`AttributeError` (older discord.py without `create_scheduled_event`), or
any other `Exception` carrying a message. -/
inductive PyExc where
  | attributeError
  | exc (msg : String)
deriving DecidableEq

/-- Outcome of an awaited Discord API call: a returned value, or a raised
exception. -/
inductive CallOutcome (α : Type) where
  | ok (val : α)
  | raise (e : PyExc)
deriving DecidableEq

/-- Model of the scheduled-event branch (bot.py lines 188-209): the guild
check, then the `try`/`except AttributeError`/`except Exception` around
`create_scheduled_event`, each arm sending exactly one follow-up reply.
`evOut` is the outcome of the API call; its name/id pair feeds the
success reply. -/
def calendar_step (guildAvail : Bool) (evOut : CallOutcome (String × Nat)) :
    List String :=
  if guildAvail = false then ["Guild not available to create the event."]
  else
    match evOut with
    | .ok (n, i) =>
      ["Discord event created: " ++ n ++ " (ID: " ++ String.mk (natRepr i) ++ ")"]
    | .raise .attributeError =>
      ["This bot\x27s discord.py version does not support creating scheduled events."]
    | .raise (.exc m) => ["Failed to create discord event: " ++ m]

/-- Observable result of one `create_event` invocation (after the check
passed): the ordered replies sent to the user (initial response plus
follow-ups), the name of the created work-thread channel if any, and the
exception escaping the handler body if any (routed to the global error
handler). -/
structure HandlerResult where
  replies : List String
  threadCreated : Option String
  propagated : Option PyExc
deriving DecidableEq

/-- Model of the `create_event` handler body (bot.py lines 109-209).
`guildAvail` is whether `interaction.guild or bot.get_guild(...)` is
non-null (computed identically at lines 131 and 189); `threadOut` is the
outcome of `create_text_channel` plus the two sends of the work-thread
step, returning the new channel's mention; `evOut` is the outcome of
`create_scheduled_event`.  The work-thread step (lines 128-145) is not
wrapped in `try`, so an exception there propagates and the calendar step
never runs; a `ValueError`/`OverflowError` escaping the date parsing
(lines 174-186) likewise propagates. -/
def create_event (event_name date time comitee place event_type : String)
    (create_work_thread create_calendar_event : Bool) (guildAvail : Bool)
    (threadOut : CallOutcome String) (evOut : CallOutcome (String × Nat)) :
    HandlerResult :=
  let r0 := "Creating event \x27" ++ event_name ++ "\x27 on " ++ date ++ " at " ++
      time ++ " hosted by " ++ comitee ++ " in " ++ place ++ " of type " ++
      event_type ++ "." ++
      (if create_work_thread then "\n A work thread will be created." else "") ++
      (if create_calendar_event then "\n The event will be added to the calendar." else "")
  let afterThread : HandlerResult :=
    if create_work_thread then
      if guildAvail = false then
        ⟨[r0, "Guild not available to create the work thread."], none, none⟩
      else
        match threadOut with
        | .ok mention =>
          ⟨[r0, "Work thread created: " ++ mention],
            some ("workthread-" ++ event_name ++ "-" ++ date), none⟩
        | .raise e => ⟨[r0], none, some e⟩
    else ⟨[r0], none, none⟩
  if afterThread.propagated.isSome then afterThread
  else if create_calendar_event then
    let et := computeEventTimes date time
    let warn := List.replicate et.warnings
      "Time format invalid, set to default (00:00), edit the event to correct it."
    match et.result with
    | none =>
      ⟨afterThread.replies ++ warn, afterThread.threadCreated, some (.exc "ValueError")⟩
    | some _ =>
      ⟨afterThread.replies ++ warn ++ calendar_step guildAvail evOut,
        afterThread.threadCreated, none⟩
  else afterThread

/- ### Specification-side definitions used for refinement comparison -/

/-- Modelled from the claim C2 words: the authorization guard is claimed to
fail exactly when the staff-role configuration value is absent, or the user
has no guild membership context, or the role set contains neither a role
matching the configured value by numeric id nor one matching it by exact
name. -/
def c2ClaimedFailure (sa : Option ConfigValue) (member : Option (List Role)) : Bool :=
  match sa with
  | none => true
  | some v =>
    match member with
    | none => true
    | some roles =>
      let idMatch :=
        match pyIntOf v with
        | some i => roles.any (fun r => (r.id : Int) == i)
        | none => false
      let nameMatch := roles.any (fun r => r.name.data == pyStr v)
      !(idMatch || nameMatch)

/-- The amended C2 failure condition, as the code implements it: the
configured value is absent or falsy, or there is no guild membership
context, or — when the value parses as an integer — no role matches it by
id, or — only when it does not parse — no role matches `str(value)` by
exact name. -/
def saAuthorizationDenied (sa : Option ConfigValue) (member : Option (List Role)) : Bool :=
  match sa with
  | none => true
  | some v =>
    if v.truthy = false then true
    else
      match member with
      | none => true
      | some roles =>
        match pyIntOf v with
        | some i => !roles.any (fun r => (r.id : Int) == i)
        | none => !roles.any (fun r => r.name.data == pyStr v)

/- ### Helper lemmas -/

lemma splitOnChar_ne_nil (c : Char) (l : List Char) : splitOnChar c l ≠ [] := by
  induction l with
  | nil => simp [splitOnChar]
  | cons x xs ih =>
    by_cases hx : x = c
    · simp [splitOnChar, hx]
    · simp only [splitOnChar, hx, if_false]
      cases hr : splitOnChar c xs with
      | nil => simp
      | cons h t => simp

lemma splitOnChar_append_cons (c : Char) (l r : List Char) :
    splitOnChar c (l ++ c :: r) = splitOnChar c l ++ splitOnChar c r := by
  induction l with
  | nil =>
    show splitOnChar c (c :: r) = splitOnChar c [] ++ splitOnChar c r
    simp [splitOnChar]
  | cons x xs ih =>
    show splitOnChar c (x :: (xs ++ c :: r)) = splitOnChar c (x :: xs) ++ splitOnChar c r
    by_cases hx : x = c
    · subst hx
      simp only [splitOnChar, if_pos rfl, if_true, List.cons_append]
      exact congrArg (List.cons []) ih
    · simp only [splitOnChar, hx, if_false]
      rw [show splitOnChar c (xs ++ c :: r) = splitOnChar c xs ++ splitOnChar c r from ih]
      cases hs : splitOnChar c xs with
      | nil => exact absurd hs (splitOnChar_ne_nil c xs)
      | cons h t => rfl

lemma splitTimeParts_of_no_dash (l : List Char)
    (h : (splitFirst '-' l).2 = none) : splitTimeParts l = (l, none) := by
  unfold splitTimeParts
  have he : splitFirst '-' l = ((splitFirst '-' l).1, none) := by
    rw [← h]
  rw [he]

lemma try_parse_of_ok (ds s : List Char) (d : DateTime)
    (h : parseDMYHM s = some d) : try_parse ds s = (some d, 0) := by
  unfold try_parse
  rw [h]

lemma try_parse_of_fallback (ds s : List Char) (md : DateTime)
    (hs : parseDMYHM s = none)
    (hd : parseDMYHM (ds ++ ' ' :: "00:00".data) = some md) :
    try_parse ds s = (some md, 1) := by
  unfold try_parse
  rw [hs, hd]

lemma foldl_digits_lt (l : List Char) :
    ∀ acc : Nat, l.all isDigitC = true →
      l.foldl (fun a c => a * 10 + (c.toNat - 48)) acc < (acc + 1) * 10 ^ l.length := by
  induction l with
  | nil =>
    intro acc _
    simp
  | cons x xs ih =>
    intro acc hall
    simp only [List.all_cons, Bool.and_eq_true] at hall
    have hd : x.toNat - 48 ≤ 9 := by
      have := hall.1
      simp only [isDigitC, Bool.and_eq_true, decide_eq_true_eq] at this
      omega
    simp only [List.foldl_cons, List.length_cons]
    have hstep := ih (acc * 10 + (x.toNat - 48)) hall.2
    have hmul : (acc * 10 + (x.toNat - 48) + 1) * 10 ^ xs.length ≤
        (acc + 1) * 10 ^ (xs.length + 1) := by
      rw [pow_succ]
      calc (acc * 10 + (x.toNat - 48) + 1) * 10 ^ xs.length
          ≤ ((acc + 1) * 10) * 10 ^ xs.length :=
            Nat.mul_le_mul_right _ (by omega)
        _ = (acc + 1) * (10 ^ xs.length * 10) := by ring
    exact lt_of_lt_of_le hstep hmul

lemma digitsVal_lt_of_all (l : List Char) (h : l.all isDigitC = true) :
    digitsVal l < 10 ^ l.length := by
  have := foldl_digits_lt l 0 h
  simpa [digitsVal] using this

lemma parseYear4_bounds (s : List Char) (y : Nat) (h : parseYear4 s = some y) :
    1 ≤ y ∧ y ≤ 9999 := by
  unfold parseYear4 at h
  split at h
  case isTrue hc =>
    simp only [Bool.and_eq_true, beq_iff_eq, decide_eq_true_eq] at hc
    obtain ⟨⟨h4, hall⟩, h1⟩ := hc
    have hlt := digitsVal_lt_of_all s hall
    rw [h4] at hlt
    injection h with h
    omega
  case isFalse => exact Option.noConfusion h

lemma parseDMY_fields (s : List Char) (d : DateTime) (h : parseDMY s = some d) :
    d.year ≤ 9999 ∧ d.hour = 0 ∧ d.minute = 0 := by
  unfold parseDMY at h
  split at h
  case h_1 dd mm yy heq =>
    split at h
    case h_1 dv mv yv hdv hmv hyv =>
      split at h
      case isTrue =>
        injection h with h
        subst h
        exact ⟨(parseYear4_bounds yy yv hyv).2, rfl, rfl⟩
      case isFalse => exact Option.noConfusion h
    case h_2 => exact Option.noConfusion h
  case h_2 => exact Option.noConfusion h

lemma parse00_fields (ds : List Char) (md : DateTime)
    (h : parseDMYHM (ds ++ ' ' :: "00:00".data) = some md) :
    md.hour = 0 ∧ md.minute = 0 ∧ md.year ≤ 9999 := by
  unfold parseDMYHM at h
  have hsp00 : splitOnChar ' ' "00:00".data = ["00:00".data] := by decide
  rw [splitOnChar_append_cons, hsp00] at h
  split at h
  case h_1 ds' ts heq =>
    have hts : ts = "00:00".data := by
      cases hsp : splitOnChar ' ' ds with
      | nil => exact absurd hsp (splitOnChar_ne_nil ' ' ds)
      | cons a as =>
        rw [hsp] at heq
        cases as with
        | nil =>
          simp only [List.cons_append, List.nil_append, List.cons.injEq] at heq
          exact heq.2.1.symm
        | cons b bs =>
          have hlen := congrArg List.length heq
          simp at hlen
    subst hts
    cases hd : parseDMY ds' with
    | none =>
      rw [hd] at h
      exact Option.noConfusion h
    | some d =>
      rw [hd] at h
      have h' : some (DateTime.mk d.year d.month d.day 0 0) = some md := h
      injection h' with h''
      subst h''
      exact ⟨rfl, rfl, (parseDMY_fields ds' d hd).1⟩
  case h_2 => exact Option.noConfusion h

lemma configTruthy_of_none (cfg : String → Option ConfigValue) (k : String)
    (h : cfg k = none) : configTruthy cfg k = false := by
  unfold configTruthy
  rw [h]

lemma proceed_truthy (cfg : String → Option ConfigValue) (token : Option String)
    (hp : startupValidate cfg token = .proceed) :
    configTruthy cfg "WorkThreadCategoryID" = true ∧
    configTruthy cfg "ServerID" = true ∧
    configTruthy cfg "Commitees" = true ∧
    configTruthy cfg "Places" = true ∧
    configTruthy cfg "event_types" = true ∧
    tokenTruthy token = true := by
  unfold startupValidate at hp
  split_ifs at hp with h1 h2 h3 h4
  simp_all [Bool.not_eq_false, Bool.and_eq_true]

lemma startupValidate_exit_shape (cfg : String → Option ConfigValue)
    (token : Option String) :
    startupValidate cfg token = .proceed ∨
      ∃ m, startupValidate cfg token = .exitWith 1 m := by
  unfold startupValidate
  split_ifs <;> first
    | exact Or.inl rfl
    | exact Or.inr ⟨_, rfl⟩

lemma startupCommands_of_exit (cfg : String → Option ConfigValue)
    (token : Option String) (m : String)
    (h : startupValidate cfg token = .exitWith 1 m) :
    startupCommands cfg token = (.exitWith 1 m, []) := by
  unfold startupCommands
  rw [h]

lemma startupValidate_congr (cfg cfg' : String → Option ConfigValue)
    (token : Option String)
    (h : ∀ k, configTruthy cfg k = configTruthy cfg' k) :
    startupValidate cfg token = startupValidate cfg' token := by
  unfold startupValidate
  rw [h "WorkThreadCategoryID", h "ServerID", h "Commitees", h "Places", h "event_types"]

/- ### Claim theorems -/

/-- C1 (code evaluation at the failing input): with the current UTC time
2025-10-12, long after 2000-06-01, `delete_all_work_threads` deletes
neither `workthread-Gala-01-06-2000` (which the specification says must be
deleted) nor `workthread-Gala-01-06-2099`; both are logged as having an
invalid date, because line 237 joins the full split of the channel name
(`"-".join(parts)` instead of `"-".join(date)`), so `strptime` always
receives the whole channel name and raises `ValueError`. -/
theorem c1_delete_all_at_failing_input :
    delete_all_work_threads ⟨2025, 10, 12, 0, 0⟩
        ["workthread-Gala-01-06-2000", "workthread-Gala-01-06-2099"] =
      ([], ["workthread-Gala-01-06-2000", "workthread-Gala-01-06-2099"]) := by
  decide

/-- C3: for date `"01-06-2025"` and time `"10:00-12:00"`, the time-range
parser of `create_event` produces start 2025-06-01 10:00 and end
2025-06-01 12:00 (both tagged UTC by `replace(tzinfo=utc)`), with no
warning reply. -/
theorem c3_event_descriptor_times :
    computeEventTimes "01-06-2025" "10:00-12:00" =
      ⟨some (⟨2025, 6, 1, 10, 0⟩, ⟨2025, 6, 1, 12, 0⟩), 0⟩ := by
  decide

/-- C8: `delete_work_thread` deletes the invoking channel and sends the
confirmation reply exactly when the channel name contains the substring
`workthread-`; on a non-matching name it performs no side effect and sends
no reply at all. -/
theorem c8_delete_work_thread_iff (name : String) :
    (((delete_work_thread (some name)).1 = some name ∧
        (delete_work_thread (some name)).2 ≠ []) ↔
      containsSub "workthread-".data name.data = true)
    ∧ (containsSub "workthread-".data name.data = false →
        delete_work_thread (some name) = (none, [])) := by
  by_cases h : containsSub "workthread-".data name.data = true
  · simp [delete_work_thread, h]
  · simp only [Bool.not_eq_true] at h
    simp [delete_work_thread, h]

/-- C10: whenever the configured `SARoleID` value parses as an integer
(and is truthy, so the guard reaches the matching step), the guard's
verdict depends only on the numeric ids of the member's roles — the
by-name comparison is never attempted.  In particular a member whose only
matching role matches by name equals the numeric string is denied. -/
theorem c10_numeric_id_matching_only (v : ConfigValue) (saId : Int)
    (roles : List Role) (hp : pyIntOf v = some saId) (ht : v.truthy = true) :
    _check_sa_role (some v) (some roles) =
      (if roles.any (fun r => (r.id : Int) == saId) then .ok
       else .checkFailure "You must have the SA role to use this command.") := by
  simp only [_check_sa_role, ht, hp]
  rfl

/-- C10 witness: `SARoleID = "5"` parses as the integer 5; a member whose
only role has id 7 but name `"5"` is denied even though the role's name
equals the configured numeric string. -/
theorem c10_witness :
    pyIntOf (.vstr "5") = some 5 ∧
    _check_sa_role (some (.vstr "5")) (some [⟨7, "5"⟩]) =
      (if List.any [(⟨7, "5"⟩ : Role)] (fun r => (r.id : Int) == (5 : Int)) then .ok
       else .checkFailure "You must have the SA role to use this command.") :=
  ⟨by decide, c10_numeric_id_matching_only (.vstr "5") 5 [⟨7, "5"⟩] (by decide) (by decide)⟩

/-- C2 counterexample: with `SARoleID = "5"` and a member whose only role
has id 7 and name `"5"`, the guard raises a check-failure although the
member's role set does contain a role matching the configured value by
exact name — refuting the claimed "neither by id nor by name" condition:
the by-name match is a fallback used only when `int(sa_value)` raises,
not a second chance after an id mismatch. -/
theorem c2_counterexample :
    (_check_sa_role (some (.vstr "5")) (some [⟨7, "5"⟩])).isFailure = true
    ∧ c2ClaimedFailure (some (.vstr "5")) (some [⟨7, "5"⟩]) = false := by
  decide

/-- C2 (amended): the guard raises a check-failure exactly when the
`SARoleID` configuration value is absent or falsy, or the user has no
guild membership context, or — when the value parses as an integer — no
role matches it by id, or — only when it does not parse — no role matches
`str(value)` by exact name; and whenever it fails, the guarded command
body does not run and the global error handler sends exactly one
authorization-failure reply. -/
theorem c2_authorization_guard_amended (sa : Option ConfigValue)
    (member : Option (List Role)) {α : Type} (body : α) :
    ((_check_sa_role sa member).isFailure = saAuthorizationDenied sa member)
    ∧ (saAuthorizationDenied sa member = true →
        (runGuarded sa member body).1 = none ∧
        (runGuarded sa member body).2.length = 1) := by
  have hcond : (_check_sa_role sa member).isFailure = saAuthorizationDenied sa member := by
    cases sa with
    | none => rfl
    | some v =>
      by_cases hv : v.truthy = false
      · cases member <;>
          simp [_check_sa_role, saAuthorizationDenied, hv, CheckResult.isFailure]
      · rw [Bool.not_eq_false] at hv
        cases member with
        | none =>
          simp [_check_sa_role, saAuthorizationDenied, hv, CheckResult.isFailure]
        | some roles =>
          cases hp : pyIntOf v with
          | some i =>
            by_cases ha : roles.any (fun r => (r.id : Int) == i) = true
            · simp [_check_sa_role, saAuthorizationDenied, hv, hp, ha,
                CheckResult.isFailure]
            · simp only [Bool.not_eq_true] at ha
              simp [_check_sa_role, saAuthorizationDenied, hv, hp, ha,
                CheckResult.isFailure]
          | none =>
            by_cases ha : roles.any (fun r => r.name.data == pyStr v) = true
            · simp [_check_sa_role, saAuthorizationDenied, hv, hp, ha,
                CheckResult.isFailure]
            · simp only [Bool.not_eq_true] at ha
              simp [_check_sa_role, saAuthorizationDenied, hv, hp, ha,
                CheckResult.isFailure]
  refine ⟨hcond, fun hd => ?_⟩
  unfold runGuarded
  cases hc : _check_sa_role sa member with
  | ok =>
    rw [hc] at hcond
    rw [← hcond] at hd
    simp [CheckResult.isFailure] at hd
  | checkFailure m => exact ⟨rfl, rfl⟩

/-- C2 amended witness: the amended equivalence and the no-side-effect
consequence, instantiated at the counterexample input. -/
theorem c2_amended_witness :
    ((_check_sa_role (some (.vstr "5")) (some [⟨7, "5"⟩])).isFailure =
      saAuthorizationDenied (some (.vstr "5")) (some [⟨7, "5"⟩]))
    ∧ (saAuthorizationDenied (some (.vstr "5")) (some [⟨7, "5"⟩]) = true →
        (runGuarded (some (.vstr "5")) (some [⟨7, "5"⟩]) (0 : Nat)).1 = none ∧
        (runGuarded (some (.vstr "5")) (some [⟨7, "5"⟩]) (0 : Nat)).2.length = 1) :=
  c2_authorization_guard_amended (some (.vstr "5")) (some [⟨7, "5"⟩]) (0 : Nat)

/-- C6: when any of the required keys `ServerID`, `WorkThreadCategoryID`,
`Commitees`, `Places`, `event_types` is missing from the configuration, or
the token is absent, startup prints a diagnostic and exits with code 1,
and no command is registered with the platform. -/
theorem c6_missing_config_exits (cfg : String → Option ConfigValue)
    (token : Option String)
    (h : (∃ k ∈ requiredKeys, cfg k = none) ∨ token = none) :
    ∃ m, startupCommands cfg token = (.exitWith 1 m, []) := by
  have hnp : startupValidate cfg token ≠ .proceed := by
    intro hp
    obtain ⟨h1, h2, h3, h4, h5, h6⟩ := proceed_truthy cfg token hp
    rcases h with ⟨k, hk, hke⟩ | ht
    · have hf := configTruthy_of_none cfg k hke
      simp only [requiredKeys, List.mem_cons, List.not_mem_nil, or_false] at hk
      rcases hk with rfl | rfl | rfl | rfl | rfl <;> simp_all
    · rw [ht] at h6
      exact Bool.noConfusion h6
  rcases startupValidate_exit_shape cfg token with hp | ⟨m, hm⟩
  · exact absurd hp hnp
  · exact ⟨m, startupCommands_of_exit cfg token m hm⟩

/-- C6 witness: the empty configuration with no token exits with code 1
and registers nothing. -/
theorem c6_witness :
    ∃ m, startupCommands (fun _ => none) none = (.exitWith 1 m, []) :=
  c6_missing_config_exits (fun _ => none) none (Or.inr rfl)

/-- C9: a required key that is present but holds a falsy value (empty
list, empty string, zero, or null) behaves identically to the key being
missing — startup produces the same result as with the key removed, and
it exits with code 1 registering no command. -/
theorem c9_falsy_key_is_missing (cfg : String → Option ConfigValue)
    (token : Option String) (k : String) (v : ConfigValue)
    (hk : k ∈ requiredKeys) (hv : cfg k = some v) (hf : v.truthy = false) :
    startupCommands cfg token =
      startupCommands (fun x => if x = k then none else cfg x) token
    ∧ ∃ m, startupCommands cfg token = (.exitWith 1 m, []) := by
  have hcong : ∀ key, configTruthy cfg key =
      configTruthy (fun x => if x = k then none else cfg x) key := by
    intro key
    by_cases hkey : key = k
    · subst hkey
      unfold configTruthy
      simp [hv, hf]
    · unfold configTruthy
      simp [hkey]
  have hval : startupValidate cfg token =
      startupValidate (fun x => if x = k then none else cfg x) token :=
    startupValidate_congr _ _ token hcong
  constructor
  · unfold startupCommands
    rw [hval]
  · have hnp : startupValidate cfg token ≠ .proceed := by
      intro hp
      obtain ⟨h1, h2, h3, h4, h5, h6⟩ := proceed_truthy cfg token hp
      have hft : configTruthy cfg k = false := by
        unfold configTruthy
        rw [hv]
        exact hf
      simp only [requiredKeys, List.mem_cons, List.not_mem_nil, or_false] at hk
      rcases hk with rfl | rfl | rfl | rfl | rfl <;> simp_all
    rcases startupValidate_exit_shape cfg token with hp | ⟨m, hm⟩
    · exact absurd hp hnp
    · exact ⟨m, startupCommands_of_exit cfg token m hm⟩

/-- C9 witness: `Commitees` present as the empty list (falsy) behaves
like a missing key and exits with code 1, registering nothing. -/
theorem c9_witness :
    (startupCommands
        (fun x => if x = "Commitees" then some (.vlist []) else some (.vstr "x"))
        (some "tok") =
      startupCommands
        (fun y => if y = "Commitees" then none
          else (fun x => if x = "Commitees" then some (.vlist []) else some (.vstr "x")) y)
        (some "tok"))
    ∧ ∃ m, startupCommands
        (fun x => if x = "Commitees" then some (.vlist []) else some (.vstr "x"))
        (some "tok") = (.exitWith 1 m, []) :=
  c9_falsy_key_is_missing
    (fun x => if x = "Commitees" then some (.vlist []) else some (.vstr "x"))
    (some "tok") "Commitees" (.vlist []) (by decide) (by decide) (by decide)

/-- C5: whenever the stripped time string contains no dash separator,
any successfully produced event times satisfy end = start + 1 hour
(the `timedelta(hours=1)` default of bot.py line 180). -/
theorem c5_end_defaults_to_start_plus_hour (date time : String)
    (h : (splitFirst '-' (trimL time.data)).2 = none)
    (s e : DateTime) (w : Nat)
    (hr : computeEventTimes date time = ⟨some (s, e), w⟩) :
    e = addHour s := by
  simp only [computeEventTimes] at hr
  rw [splitTimeParts_of_no_dash (trimL time.data) h] at hr
  rcases htp : try_parse (trimL date.data) (trimL date.data ++ ' ' :: trimL time.data)
    with ⟨s?, w1⟩
  rw [htp] at hr
  cases s? with
  | none => exact absurd hr (by simp)
  | some s' =>
    simp only [finishWithAddHour] at hr
    split at hr
    · exact absurd hr (by simp)
    · injection hr with h1 h2
      injection h1 with h1
      rw [← (Prod.mk.injEq _ _ _ _).mp h1 |>.2,
        (Prod.mk.injEq _ _ _ _).mp h1 |>.1]

/-- C5 witness: for date `"01-06-2025"` and time `"10:00"` the computed
end time is exactly one hour after the computed start time. -/
theorem c5_witness :
    (⟨2025, 6, 1, 11, 0⟩ : DateTime) = addHour ⟨2025, 6, 1, 10, 0⟩ :=
  c5_end_defaults_to_start_plus_hour "01-06-2025" "10:00" (by decide)
    ⟨2025, 6, 1, 10, 0⟩ ⟨2025, 6, 1, 11, 0⟩ 0 (by decide)

/-- C4 counterexample: with the unparsable date `"banana"` and time
`"10:00"`, the start component fails to parse (the claim's premise holds),
the warning reply is sent, but the datetime does NOT default to midnight:
the fallback parse of `"banana 00:00"` raises `ValueError` as well, the
computation produces no event times, and the exception propagates out of
the handler body — refuting "non-fatal for any unparsable date/time
input". -/
theorem c4_counterexample :
    parseDMYHM (trimL "banana".data ++ ' ' ::
        (splitTimeParts (trimL "10:00".data)).1) = none
    ∧ (computeEventTimes "banana" "10:00").result = none
    ∧ (computeEventTimes "banana" "10:00").warnings = 1
    ∧ (create_event "Gala" "banana" "10:00" "c" "p" "t" false true true
        (.ok "m") (.ok ("Gala", 1))).propagated = some (.exc "ValueError") := by
  decide

/-- C4 (amended): provided the given date itself parses (so the fallback
input `"{date} 00:00"` parses to some midnight datetime `md`), any
start or end part that fails to parse defaults to `md`, at least one
warning reply is sent, and the computation still produces event times
(non-fatal); when the date is unparsable the fallback raises and the
exception propagates (see the counterexample). -/
theorem c4_midnight_default_amended (date time : String) (md : DateTime)
    (hd : parseDMYHM (trimL date.data ++ ' ' :: "00:00".data) = some md) :
    (parseDMYHM (trimL date.data ++ ' ' ::
        (splitTimeParts (trimL time.data)).1) = none →
      ∃ e w, computeEventTimes date time = ⟨some (md, e), w⟩ ∧ 1 ≤ w)
    ∧ (∀ ep, (splitTimeParts (trimL time.data)).2 = some ep →
        ep.isEmpty = false →
        parseDMYHM (trimL date.data ++ ' ' :: ep) = none →
        ∃ s w, computeEventTimes date time = ⟨some (s, md), w⟩ ∧ 1 ≤ w) := by
  obtain ⟨hh0, hm0, hy⟩ := parse00_fields (trimL date.data) md hd
  have hay : (addHour md).year = md.year := by
    unfold addHour
    rw [hh0]
    simp
  have hnoov : finishWithAddHour md 1 = ⟨some (md, addHour md), 1⟩ := by
    unfold finishWithAddHour
    rw [if_neg (by rw [hay]; omega)]
  refine ⟨fun hs => ?_, fun ep hep hne he => ?_⟩
  · have hfb := try_parse_of_fallback (trimL date.data)
      (trimL date.data ++ ' ' :: (splitTimeParts (trimL time.data)).1) md hs hd
    cases hp2 : (splitTimeParts (trimL time.data)).2 with
    | none =>
      refine ⟨addHour md, 1, ?_, le_refl 1⟩
      simp only [computeEventTimes, hfb, hp2, hnoov]
    | some ep =>
      by_cases hemp : ep.isEmpty = true
      · refine ⟨addHour md, 1, ?_, le_refl 1⟩
        simp only [computeEventTimes, hfb, hp2, hemp, if_true, hnoov]
      · simp only [Bool.not_eq_true] at hemp
        cases hpe : parseDMYHM (trimL date.data ++ ' ' :: ep) with
        | some e0 =>
          refine ⟨e0, 1 + 0, ?_, by omega⟩
          simp only [computeEventTimes, hfb, hp2, hemp, Bool.false_eq_true,
            if_false, try_parse_of_ok (trimL date.data) _ e0 hpe]
        | none =>
          refine ⟨md, 1 + 1, ?_, by omega⟩
          simp only [computeEventTimes, hfb, hp2, hemp, Bool.false_eq_true,
            if_false, try_parse_of_fallback (trimL date.data) _ md hpe hd]
  · cases hps : parseDMYHM (trimL date.data ++ ' ' ::
        (splitTimeParts (trimL time.data)).1) with
    | some s0 =>
      refine ⟨s0, 0 + 1, ?_, by omega⟩
      simp only [computeEventTimes, try_parse_of_ok (trimL date.data) _ s0 hps,
        hep, hne, Bool.false_eq_true, if_false,
        try_parse_of_fallback (trimL date.data) _ md he hd]
    | none =>
      refine ⟨md, 1 + 1, ?_, by omega⟩
      simp only [computeEventTimes,
        try_parse_of_fallback (trimL date.data) _ md hps hd, hep, hne,
        Bool.false_eq_true, if_false,
        try_parse_of_fallback (trimL date.data) _ md he hd]

/-- C4 amended witness: with date `"01-06-2025"` (parsable) and time
`"banana"` (unparsable), the start defaults to midnight 2025-06-01 with a
warning, non-fatally. -/
theorem c4_amended_witness :
    (parseDMYHM (trimL "01-06-2025".data ++ ' ' ::
        (splitTimeParts (trimL "banana".data)).1) = none →
      ∃ e w, computeEventTimes "01-06-2025" "banana" =
        ⟨some (⟨2025, 6, 1, 0, 0⟩, e), w⟩ ∧ 1 ≤ w)
    ∧ (∀ ep, (splitTimeParts (trimL "banana".data)).2 = some ep →
        ep.isEmpty = false →
        parseDMYHM (trimL "01-06-2025".data ++ ' ' :: ep) = none →
        ∃ s w, computeEventTimes "01-06-2025" "banana" =
          ⟨some (s, ⟨2025, 6, 1, 0, 0⟩), w⟩ ∧ 1 ≤ w) :=
  c4_midnight_default_amended "01-06-2025" "banana" ⟨2025, 6, 1, 0, 0⟩ (by decide)

/-- C7: in any create-event invocation with calendar creation enabled that
reaches the scheduled-event call (the unguarded work-thread step did not
raise, and the date parsing produced event times), every outcome of the
`create_scheduled_event` call — success, `AttributeError`, or any other
exception — results in exactly one follow-up text reply from the
`try`/`except` arms, all of the calendar step's replies are among the
handler's replies, nothing propagates out of the handler, and the
work-thread step's outcome is reported by its own separate follow-up. -/
theorem c7_calendar_exceptions_reported (en d t c p ty : String) (cwt : Bool)
    (guildAvail : Bool) (threadOut : CallOutcome String)
    (evOut : CallOutcome (String × Nat))
    (hthread : ∀ e, threadOut ≠ .raise e)
    (hdate : (computeEventTimes d t).result.isSome = true) :
    (create_event en d t c p ty cwt true guildAvail threadOut evOut).propagated = none
    ∧ (∀ r ∈ calendar_step guildAvail evOut,
        r ∈ (create_event en d t c p ty cwt true guildAvail threadOut evOut).replies)
    ∧ (calendar_step guildAvail evOut).length = 1
    ∧ (cwt = true → guildAvail = true → ∀ mention, threadOut = .ok mention →
        ("Work thread created: " ++ mention) ∈
          (create_event en d t c p ty cwt true guildAvail threadOut evOut).replies) := by
  obtain ⟨pr, hpr⟩ := Option.isSome_iff_exists.mp hdate
  cases threadOut with
  | raise e => exact absurd rfl (hthread e)
  | ok mention =>
    have hlen : (calendar_step guildAvail evOut).length = 1 := by
      cases guildAvail with
      | false => rfl
      | true =>
        cases evOut with
        | ok val =>
          rcases val with ⟨n, i⟩
          rfl
        | raise e => cases e <;> rfl
    refine ⟨?_, ?_, hlen, ?_⟩
    · cases cwt <;> cases guildAvail <;> simp [create_event, hpr]
    · intro r hr
      cases cwt <;> cases guildAvail <;> simp [create_event, hpr, hr]
    · intro hcwt hga mention2 hto
      injection hto with hm
      subst hm
      subst hcwt
      subst hga
      simp [create_event, hpr]

/-- C7 witness: a concrete invocation whose scheduled-event call raises a
generic exception: the handler still propagates nothing, the failure
reply of the `except` arm is among the replies, and the work-thread
success is reported separately. -/
theorem c7_witness :
    ((create_event "Gala" "01-06-2025" "10:00-12:00" "c" "p" "t" true true true
        (.ok "#wt") (.raise (.exc "boom"))).propagated = none)
    ∧ (∀ r ∈ calendar_step true (.raise (.exc "boom")),
        r ∈ (create_event "Gala" "01-06-2025" "10:00-12:00" "c" "p" "t" true true true
          (.ok "#wt") (.raise (.exc "boom"))).replies)
    ∧ (calendar_step true (.raise (.exc "boom"))).length = 1
    ∧ (true = true → true = true → ∀ mention,
        (CallOutcome.ok "#wt" : CallOutcome String) = .ok mention →
        ("Work thread created: " ++ mention) ∈
          (create_event "Gala" "01-06-2025" "10:00-12:00" "c" "p" "t" true true true
            (.ok "#wt") (.raise (.exc "boom"))).replies) :=
  c7_calendar_exceptions_reported "Gala" "01-06-2025" "10:00-12:00" "c" "p" "t"
    true true (.ok "#wt") (.raise (.exc "boom"))
    (fun e h => CallOutcome.noConfusion h) (by decide)

end SHVBot
